import Mathlib

set_option maxRecDepth 100000

/-!
Verification of the DocumentRAG-Azure core (python-rag-api) against its
natural-language specification.

Shallow embedding of the relevant code:
  - `app/services/rag_service.py`   (query pipeline, rerank, citations, indexing, deletion)
  - `app/services/vector_store.py`  (dual-backend vector store, `is_initialized`)
  - `app/services/storage_service.py` and
    `app/services/local_metadata_store.py` (conversation append, metadata persistence)
  - `app/utils/file_utils.py`       (document / chunk id generation, incl. a full MD5)
  - `app/api/endpoints/chat.py`     (exception-to-HTTP-status mapping)

Python floats that only ever act as sort keys / scores are modelled as `Rat`;
byte strings as `List Nat` (each entry a byte value); timestamps as `Nat` ticks
(ISO-format strings from `datetime.utcnow()` are strictly monotone in real time).
-/

/-- Mirrors `DocumentStatus` in `app/models/document.py`. -/
inductive DocumentStatus where
  | uploaded
  | processing
  | indexed
  | failed
deriving DecidableEq

/-- The metadata dictionary carried by a langchain `Document`, projected onto the
keys the code under verification reads (`rag_service.py` reads exactly
`document_id`, `document_name`, `source_file`, `chunk_id`, `page`, `page_number`,
`score`).  A key absent from the dict is `none`. -/
structure ChunkMetadata where
  document_id : Option String
  document_name : Option String
  source_file : Option String
  chunk_id : Option String
  page : Option Int
  page_number : Option Int
  score : Option Rat
deriving DecidableEq

/-- A langchain `Document` as used throughout `rag_service.py`: text content plus
a metadata dict. -/
structure Document where
  page_content : String
  metadata : ChunkMetadata
deriving DecidableEq

/-- The sort key of `RAGService._rerank_documents`: `d.metadata.get("score", 0)`. -/
def scoreOf (d : Document) : Rat := (d.metadata.score).getD 0

/-- Insert `d` into `l` after every element of greater-or-equal score and before
the first element of strictly smaller score. -/
def insert_desc (d : Document) : List Document → List Document
  | [] => [d]
  | x :: xs => if scoreOf x < scoreOf d then d :: x :: xs else x :: insert_desc d xs

/-- Embeds `sorted(documents, key=lambda d: d.metadata.get("score", 0), reverse=True)`
from `RAGService._rerank_documents`.  Python's `sorted` is stable, and with
`reverse=True` it keeps equal-key elements in input order; stable descending
sorting is computed exactly by left-to-right insertion that places each element
after earlier elements of greater-or-equal key. -/
def sort_by_score_desc (documents : List Document) : List Document :=
  documents.foldl (fun acc d => insert_desc d acc) []

/-- Embeds `RAGService._rerank_documents` (`rag_service.py` lines 296-308).
`documents[0]` on an empty list raises `IndexError`, modelled as `none`
(langchain documents always have a `metadata` attribute, so the `hasattr`
conjunct is decided by the `"score" in documents[0].metadata` membership test). -/
def rerank_documents (documents : List Document) : Option (List Document) :=
  match documents with
  | [] => none
  | d0 :: _ =>
    if (d0.metadata.score).isSome then some (sort_by_score_desc documents)
    else some documents

/-- Step 3 of `RAGService.query`: `self._rerank_documents(relevant_docs, ...)[: request.top_k]`. -/
def select_top_docs (relevant_docs : List Document) (top_k : Nat) : Option (List Document) :=
  (rerank_documents relevant_docs).map (fun l => l.take top_k)

/-- Mirrors the `Citation` pydantic model in `app/models/chat.py`. -/
structure Citation where
  number : Nat
  document_id : String
  document_name : String
  chunk_id : String
  page : Option Int
  content : String
  score : Rat
deriving DecidableEq

/-- The loop body of `RAGService._generate_citations` with loop counter `i`:
the `Citation(...)` constructor call of `rag_service.py` lines 370-386. -/
def citation_of (i : Nat) (d : Document) : Citation :=
  { number := i + 1
    document_id := (d.metadata.document_id).getD "unknown"
    document_name := ((d.metadata.document_name).orElse fun _ => d.metadata.source_file).getD "unknown"
    chunk_id := (d.metadata.chunk_id).getD (toString i)
    page := (d.metadata.page).orElse fun _ => d.metadata.page_number
    content :=
      if d.page_content.length > 200 then d.page_content.take 200 ++ "..."
      else d.page_content
    score := (d.metadata.score).getD 0 }

/-- The `for i, doc in enumerate(documents)` loop of `RAGService._generate_citations`,
with the running counter made explicit. -/
def generate_citations_from (i : Nat) : List Document → List Citation
  | [] => []
  | d :: ds => citation_of i d :: generate_citations_from (i + 1) ds

/-- Embeds `RAGService._generate_citations` (`rag_service.py` lines 365-387). -/
def generate_citations (documents : List Document) : List Citation :=
  generate_citations_from 0 documents

/-- The two backends of `VectorStore` (`app/services/vector_store.py`). -/
inductive VectorStoreType where
  | chroma
  | azure_search
deriving DecidableEq

/-- State of a constructed `VectorStore`.  `vectorstore` is the lazily created
Chroma handle (`None` until an existing on-disk index is loaded or a first `add`
creates one), holding the indexed entries.  `search_client` is the Azure
`SearchClient`, paired with the entries held by the remote index it points at
(`some []` is a constructed client over an index with zero entries). -/
structure VectorStore where
  vector_store_type : VectorStoreType
  vectorstore : Option (List Document)
  search_client : Option (List Document)
deriving DecidableEq

/-- Embeds `VectorStore.is_initialized` (`vector_store.py` lines 463-471). -/
def is_initialized (s : VectorStore) : Bool :=
  match s.vector_store_type with
  | .chroma => (s.vectorstore).isSome
  | .azure_search => (s.search_client).isSome

/-- Number of indexed documents a store holds (zero for a fresh store). -/
def indexed_document_count (s : VectorStore) : Nat :=
  match s.vector_store_type with
  | .chroma => ((s.vectorstore).getD []).length
  | .azure_search => ((s.search_client).getD []).length

/-- Outcome of `RAGService.query` as observed by its caller: a normal return
carrying the reranked-and-truncated chunks, a raised `ValueError`, or a raised
`IndexError`. -/
inductive QueryOutcome where
  | ok (used_docs : List Document)
  | valueError (msg : String)
  | indexError
deriving DecidableEq

/-- Embeds the head of `RAGService.query` (`rag_service.py` lines 164-188): the
`is_initialized` guard raising `ValueError`, then rerank-and-truncate of the
retrieval result.  `retrieved_docs` is the list the backend retriever returned
(steps after the truncation do not affect which of the three outcomes occurs). -/
def rag_query (store : VectorStore) (retrieved_docs : List Document) (top_k : Nat) : QueryOutcome :=
  if is_initialized store = false then
    .valueError "No documents indexed yet. Index documents first."
  else
    match select_top_docs retrieved_docs top_k with
    | none => .indexError
    | some used => .ok used

/-- Embeds the exception mapping of the `/chat/query` endpoint
(`app/api/endpoints/chat.py` lines 52-82): `ValueError` becomes HTTP 400 with
error label "Validation Error"; any other exception becomes HTTP 500 with
error label "Internal Server Error". -/
def chat_query_status : QueryOutcome → Nat × String
  | .ok _ => (200, "OK")
  | .valueError _ => (400, "Validation Error")
  | .indexError => (500, "Internal Server Error")

/-- Persisted document record, mirroring `DocumentMetadata` in
`app/models/document.py` (timestamps omitted: the claims under verification do
not constrain them). -/
structure DocumentMetadata where
  document_id : String
  filename : String
  file_type : String
  file_size : Nat
  status : DocumentStatus
  chunk_count : Nat
  blob_url : Option String
  error_message : Option String
deriving DecidableEq

/-- Embeds `RAGService.delete_document` (`rag_service.py` lines 409-427) acting
on the persistent state it can touch: the ids of the entries in the vector
store, the set of document ids with a stored metadata record, and the set of
document ids with stored blobs.  The body calls only
`storage_service.delete_document_metadata` (SQL `DELETE ... WHERE document_id = ?`
or the Cosmos equivalent) and `storage_service.delete_document_from_blob`
(deletes the blobs whose names start with the document id), then returns `True`;
the vector store is not touched (the in-code comment reads "Delete from vector
store (would need chunk IDs) / For now, just delete metadata"). -/
def delete_document (vector_entry_ids : List String) (metadata_doc_ids : List String)
    (blob_doc_ids : List String) (document_id : String) :
    (List String × List String × List String) × Bool :=
  ((vector_entry_ids,
    metadata_doc_ids.filter (fun d => d != document_id),
    blob_doc_ids.filter (fun d => d != document_id)), true)

/-- Embeds `generate_chunk_id` (`app/utils/file_utils.py` lines 35-37). -/
def generate_chunk_id (document_id : String) (chunk_index : Nat) : String :=
  document_id ++ "_chunk_" ++ toString chunk_index

/-- Possible outcomes of the blob upload attempted inside
`StorageService.upload_document_to_blob`: success with a URL, an `AzureError`,
or any other raised exception (for example an `OSError` opening the file). -/
inductive UploadOutcome where
  | succeeded (url : String)
  | azureError (msg : String)
  | raised (msg : String)
deriving DecidableEq

/-- Embeds `StorageService.upload_document_to_blob` (`storage_service.py`
lines 34-81): returns `None` when no blob client is configured, catches
`AzureError` and returns `None`, lets any other exception propagate. -/
def upload_document_to_blob (blob_configured : Bool) (outcome : UploadOutcome) :
    Except String (Option String) :=
  if blob_configured = false then .ok none
  else
    match outcome with
    | .succeeded url => .ok (some url)
    | .azureError _ => .ok none
    | .raised msg => .error msg

/-- Embeds `StorageService.save_document_metadata` (`storage_service.py`
lines 152-182 and `local_metadata_store.py` lines 78-125): both branches catch
every exception and report success as a boolean, so a metadata-save failure
never propagates to the caller. -/
def save_document_metadata_ok (save_succeeds : Bool) : Bool :=
  save_succeeds

deriving instance DecidableEq for Except

/-- Observable result of one `RAGService.index_document` call. -/
structure IndexOutcome where
  result : Except String DocumentMetadata
  vector_ids : List String
  saved : Option DocumentMetadata
deriving DecidableEq

/-- Embeds `RAGService.index_document` (`rag_service.py` lines 83-149).
External effects are passed in as outcomes: `process_result` is what
`document_processor.process_document` returns or raises (the chunk contents),
`add_result` is whether `vector_store.add_documents` raised, `upload_outcome`
feeds the blob upload, and `save_succeeds` feeds the (exception-absorbing)
metadata save.  `prior_vector_ids` are the vector-store entry ids before the
call; `vector_ids` in the outcome are those after it; `saved` is the metadata
record last handed to `save_document_metadata`. -/
def index_document (prior_vector_ids : List String) (document_id : String)
    (filename : String) (file_type : String) (file_size : Nat)
    (process_result : Except String (List String))
    (add_result : Except String Unit)
    (blob_configured : Bool) (upload_outcome : UploadOutcome)
    (save_succeeds : Bool) : IndexOutcome :=
  let base : DocumentMetadata :=
    { document_id := document_id, filename := filename, file_type := file_type
      file_size := file_size, status := .processing, chunk_count := 0
      blob_url := none, error_message := none }
  match process_result with
  | .error e =>
    { result := .error e, vector_ids := prior_vector_ids
      saved := some { base with status := .failed, error_message := some e } }
  | .ok chunks =>
    let chunk_ids := (List.range chunks.length).map (fun i => generate_chunk_id document_id i)
    match add_result with
    | .error e =>
      { result := .error e, vector_ids := prior_vector_ids
        saved := some { base with status := .failed, error_message := some e } }
    | .ok _ =>
      let after_add := prior_vector_ids ++ chunk_ids
      match upload_document_to_blob blob_configured upload_outcome with
      | .error e =>
        { result := .error e, vector_ids := after_add
          saved := some { base with status := .failed, error_message := some e } }
      | .ok blob_url =>
        let indexed : DocumentMetadata :=
          { base with status := .indexed, chunk_count := chunks.length, blob_url := blob_url }
        let _ := save_document_metadata_ok save_succeeds
        { result := .ok indexed, vector_ids := after_add, saved := some indexed }

/-- One stored conversation message, mirroring the dicts appended by
`RAGService.query` (`rag_service.py` lines 249-266). -/
structure ConversationMessage where
  role : String
  content : String
  timestamp : String
deriving DecidableEq

/-- One conversation row, mirroring the `conversations` table of
`local_metadata_store.py` (and the Cosmos document of `storage_service.py`).
`updated_at` is a tick count: `datetime.utcnow().isoformat()` strings are
strictly monotone in real time. -/
structure Conversation where
  conversation_id : String
  messages : List ConversationMessage
  message_count : Nat
  updated_at : Nat
deriving DecidableEq

/-- Embeds `append_conversation_messages`
(`local_metadata_store.py` lines 224-270, identically `storage_service.py`
lines 363-395) acting on the selected row: empty batches return `True` without
touching the row, a missing row returns `False`, otherwise the messages are
extended, `message_count` is set to the length of the extended list, and
`updated_at` is set to the current time. -/
def append_conversation_messages (row : Option Conversation)
    (messages : List ConversationMessage) (now : Nat) : Option Conversation × Bool :=
  if messages.isEmpty then (row, true)
  else
    match row with
    | none => (none, false)
    | some conv =>
      let existing_messages := conv.messages ++ messages
      (some { conv with
                messages := existing_messages
                message_count := existing_messages.length
                updated_at := now }, true)

/-- Clamp a rational to the unit interval. -/
def clamp01 (x : Rat) : Rat := max 0 (min 1 x)

/-- Modelled from the spec: the fixed low confidence returned for an empty
`used_docs` list (spec 4.6: "returns a defined low value (not an error) when
`used_chunks` is empty"; the spec fixes no numeric value). -/
def low_confidence : Rat := mkRat 1 10

/-- Modelled from the spec: `ImprovedConfidenceCalculator.calculate_confidence`
is imported by `rag_service.py` from `app/utils/confidence_calculator.py`, a
file absent from the source tree; only its import and call sites are present.
Spec 4.6 requires combining (a) semantic alignment between the answer and the
chunks actually used and (b) the fraction of retrieved chunks that were used,
with the result strictly bounded to the unit interval and a defined low value
when `used_docs` is empty.  `similarity` stands for the external
embedding-based semantic-similarity primitive. -/
def calculate_confidence (similarity : String → String → Rat)
    (query : String) (answer : String)
    (retrieved_docs : List Document) (used_docs : List Document) : Rat :=
  if used_docs.isEmpty then low_confidence
  else
    let _ := query
    let context := String.intercalate " " (used_docs.map (fun d => d.page_content))
    let alignment := clamp01 (similarity answer context)
    let utilization := mkRat used_docs.length (max retrieved_docs.length used_docs.length)
    clamp01 (mkRat 7 10 * alignment + mkRat 3 10 * utilization)

/-- The sixteen lowercase hexadecimal digits, in value order. -/
def hexTable : List Char := "0123456789abcdef".toList

/-- Hexadecimal digit of `n % 16`. -/
def hexDigit (n : Nat) : Char := hexTable.getD (n % 16) '0'

/-- Truncation to a 32-bit word. -/
def w32 (n : Nat) : Nat := n % 4294967296

/-- 32-bit left rotation by `s` (for `s ≤ 32`). -/
def rotl32 (x s : Nat) : Nat := w32 ((x <<< s) + (w32 x >>> (32 - s)))

/-- The MD5 round constants (RFC 1321): `K[i] = floor(2^32 * abs(sin(i + 1)))`. -/
def md5_k : List Nat :=
  [0xd76aa478, 0xe8c7b756, 0x242070db, 0xc1bdceee,
   0xf57c0faf, 0x4787c62a, 0xa8304613, 0xfd469501,
   0x698098d8, 0x8b44f7af, 0xffff5bb1, 0x895cd7be,
   0x6b901122, 0xfd987193, 0xa679438e, 0x49b40821,
   0xf61e2562, 0xc040b340, 0x265e5a51, 0xe9b6c7aa,
   0xd62f105d, 0x02441453, 0xd8a1e681, 0xe7d3fbc8,
   0x21e1cde6, 0xc33707d6, 0xf4d50d87, 0x455a14ed,
   0xa9e3e905, 0xfcefa3f8, 0x676f02d9, 0x8d2a4c8a,
   0xfffa3942, 0x8771f681, 0x6d9d6122, 0xfde5380c,
   0xa4beea44, 0x4bdecfa9, 0xf6bb4b60, 0xbebfbc70,
   0x289b7ec6, 0xeaa127fa, 0xd4ef3085, 0x04881d05,
   0xd9d4d039, 0xe6db99e5, 0x1fa27cf8, 0xc4ac5665,
   0xf4292244, 0x432aff97, 0xab9423a7, 0xfc93a039,
   0x655b59c3, 0x8f0ccc92, 0xffeff47d, 0x85845dd1,
   0x6fa87e4f, 0xfe2ce6e0, 0xa3014314, 0x4e0811a1,
   0xf7537e82, 0xbd3af235, 0x2ad7d2bb, 0xeb86d391]

/-- The MD5 per-round left-rotation amounts (RFC 1321). -/
def md5_s : List Nat :=
  [7, 12, 17, 22, 7, 12, 17, 22, 7, 12, 17, 22, 7, 12, 17, 22,
   5, 9, 14, 20, 5, 9, 14, 20, 5, 9, 14, 20, 5, 9, 14, 20,
   4, 11, 16, 23, 4, 11, 16, 23, 4, 11, 16, 23, 4, 11, 16, 23,
   6, 10, 15, 21, 6, 10, 15, 21, 6, 10, 15, 21, 6, 10, 15, 21]

/-- Round function and message-word index of MD5 round `i` (inputs are 32-bit). -/
def md5_f (i b c d : Nat) : Nat × Nat :=
  if i < 16 then ((b &&& c) ||| ((0xffffffff ^^^ b) &&& d), i)
  else if i < 32 then ((d &&& b) ||| ((0xffffffff ^^^ d) &&& c), (5 * i + 1) % 16)
  else if i < 48 then (b ^^^ c ^^^ d, (3 * i + 5) % 16)
  else (c ^^^ (b ||| (0xffffffff ^^^ d)), (7 * i) % 16)

/-- One MD5 round on state `(a, b, c, d)` with 16-word message block `M`. -/
def md5_step (M : List Nat) (st : Nat × Nat × Nat × Nat) (i : Nat) : Nat × Nat × Nat × Nat :=
  match st with
  | (a, b, c, d) =>
    match md5_f i b c d with
    | (f, g) =>
      let f2 := w32 (f + a + md5_k.getD i 0 + M.getD g 0)
      (d, w32 (b + rotl32 f2 (md5_s.getD i 0)), b, c)

/-- The 64-round MD5 block compression, with the feed-forward addition. -/
def md5_compress (st : Nat × Nat × Nat × Nat) (M : List Nat) : Nat × Nat × Nat × Nat :=
  match (List.range 64).foldl (fun s i => md5_step M s i) st with
  | (a, b, c, d) => (w32 (st.1 + a), w32 (st.2.1 + b), w32 (st.2.2.1 + c), w32 (st.2.2.2 + d))

/-- Split a list into consecutive groups of `n + 1` elements (`fuel` bounds the
recursion so the definition stays structural and kernel-reducible; it is always
called with `fuel = l.length`, which suffices because every step consumes at
least one element). -/
def chunks_go (fuel : Nat) (n : Nat) : List Nat → List (List Nat)
  | [] => []
  | x :: xs =>
    match fuel with
    | 0 => []
    | f + 1 => (x :: xs).take (n + 1) :: chunks_go f n ((x :: xs).drop (n + 1))

/-- Split a list into consecutive groups of `n + 1` elements. -/
def chunks_succ (n : Nat) (l : List Nat) : List (List Nat) := chunks_go l.length n l

/-- Little-endian 32-bit word from (up to) four bytes. -/
def le_word (bytes : List Nat) : Nat :=
  bytes.getD 0 0 + 256 * bytes.getD 1 0 + 65536 * bytes.getD 2 0 + 16777216 * bytes.getD 3 0

/-- Little-endian words of a byte list, four bytes per word. -/
def to_words_le (l : List Nat) : List Nat := (chunks_succ 3 l).map le_word

/-- The four little-endian bytes of a 32-bit value. -/
def le_bytes4 (x : Nat) : List Nat :=
  [x % 256, x / 256 % 256, x / 65536 % 256, x / 16777216 % 256]

/-- The eight little-endian bytes of a 64-bit value. -/
def le_bytes8 (x : Nat) : List Nat :=
  le_bytes4 (x % 4294967296) ++ le_bytes4 (x / 4294967296)

/-- MD5 padding (RFC 1321): a `0x80` byte, zeros to 56 mod 64, then the
original bit length as a little-endian 64-bit value. -/
def md5_pad (msg : List Nat) : List Nat :=
  let len := msg.length
  let zeros := (120 - ((len + 1) % 64)) % 64
  msg ++ [0x80] ++ List.replicate zeros 0 ++ le_bytes8 ((8 * len) % 18446744073709551616)

/-- The sixteen MD5 digest bytes of a byte message (RFC 1321). -/
def md5_digest_bytes (msg : List Nat) : List Nat :=
  let blocks := (chunks_succ 63 (md5_pad msg)).map to_words_le
  match blocks.foldl md5_compress (0x67452301, 0xefcdab89, 0x98badcfe, 0x10325476) with
  | (a, b, c, d) => le_bytes4 a ++ le_bytes4 b ++ le_bytes4 c ++ le_bytes4 d

/-- Lowercase hex rendering of a byte list, two digits per byte. -/
def bytes_to_hex : List Nat → List Char
  | [] => []
  | b :: bs => hexDigit (b / 16) :: hexDigit (b % 16) :: bytes_to_hex bs

/-- Embeds Python's `hashlib.md5(msg).hexdigest()`: the 32-character lowercase
hex digest, as a character list (Python string slicing operates on characters). -/
def md5_hexdigest (msg : List Nat) : List Char := bytes_to_hex (md5_digest_bytes msg)

/-- UTF-8 encoding of one code point. -/
def utf8_encode_char (n : Nat) : List Nat :=
  if n < 0x80 then [n]
  else if n < 0x800 then [0xC0 ||| (n >>> 6), 0x80 ||| (n &&& 0x3F)]
  else if n < 0x10000 then
    [0xE0 ||| (n >>> 12), 0x80 ||| ((n >>> 6) &&& 0x3F), 0x80 ||| (n &&& 0x3F)]
  else
    [0xF0 ||| (n >>> 18), 0x80 ||| ((n >>> 12) &&& 0x3F),
     0x80 ||| ((n >>> 6) &&& 0x3F), 0x80 ||| (n &&& 0x3F)]

/-- Embeds Python's `file_path.encode()`: the UTF-8 bytes of a string. -/
def str_utf8_bytes (s : String) : List Nat :=
  s.data.foldr (fun c acc => utf8_encode_char c.toNat ++ acc) []

/-- Embeds `generate_document_id` (`app/utils/file_utils.py` lines 28-32).
`content` is the optional `bytes` argument; Python's `if content:` test is
falsy both for `None` and for an empty byte string, so `some []` falls through
to the path-hash branch exactly as `None` does.  The id is a character list:
the full 32-character hex digest of the content bytes, or the first 16
characters of the hex digest of the UTF-8 bytes of the file path. -/
def generate_document_id (file_path : String) (content : Option (List Nat)) : List Char :=
  match content with
  | some bytes =>
    if bytes.isEmpty = false then md5_hexdigest bytes
    else (md5_hexdigest (str_utf8_bytes file_path)).take 16
  | none => (md5_hexdigest (str_utf8_bytes file_path)).take 16

/-- Fixture: a chunk with score 1 and full metadata. -/
def docA : Document :=
  { page_content := "alpha"
    metadata :=
      { document_id := some "d1", document_name := some "one.txt", source_file := none
        chunk_id := some "d1_chunk_0", page := some 1, page_number := none, score := some 1 } }

/-- Fixture: a chunk with score 2 and full metadata. -/
def docB : Document :=
  { page_content := "beta"
    metadata :=
      { document_id := some "d1", document_name := some "one.txt", source_file := none
        chunk_id := some "d1_chunk_1", page := some 2, page_number := none, score := some 2 } }

/-- Fixture: a chunk whose metadata dict carries no keys at all. -/
def bareDoc : Document :=
  { page_content := "bare"
    metadata :=
      { document_id := none, document_name := none, source_file := none
        chunk_id := none, page := none, page_number := none, score := none } }

/-- Fixture: a freshly constructed Chroma-backed store with no on-disk index. -/
def chroma_fresh_store : VectorStore :=
  { vector_store_type := .chroma, vectorstore := none, search_client := none }

/-- Fixture: an Azure-Search-backed store whose client is constructed but whose
remote index holds zero entries. -/
def azure_empty_store : VectorStore :=
  { vector_store_type := .azure_search, vectorstore := none, search_client := some [] }

/-- Fixture: a conversation row holding one message, with count in sync. -/
def sample_conversation : Conversation :=
  { conversation_id := "conv1"
    messages := [{ role := "user", content := "hello", timestamp := "t0" }]
    message_count := 1
    updated_at := 5 }

/-- Fixture: a user message as appended by the query path. -/
def sample_user_message : ConversationMessage :=
  { role := "user", content := "What are the main topics?", timestamp := "t1" }

/-- Fixture: an assistant message as appended by the query path. -/
def sample_assistant_message : ConversationMessage :=
  { role := "assistant", content := "The main topics are ...", timestamp := "t2" }

/-- The citation at position `i` of the generated citation list (`bareDoc`-based
default, only read out of range). -/
def nth_citation (documents : List Document) (i : Nat) : Citation :=
  (generate_citations documents).getD i (citation_of 0 bareDoc)

/-- The document at position `i` of a chunk list (`bareDoc` default, only read
out of range). -/
def nth_document (documents : List Document) (i : Nat) : Document :=
  documents.getD i bareDoc

/-- Sortedness by descending score, the postcondition of the rerank sort. -/
def SortedByScoreDesc (l : List Document) : Prop :=
  List.Pairwise (fun a b => scoreOf b ≤ scoreOf a) l

example : md5_hexdigest [] = "d41d8cd98f00b204e9800998ecf8427e".toList := by decide

example : md5_hexdigest (str_utf8_bytes "abc") = "900150983cd24fb0d6963f7d28e17f72".toList := by
  decide

theorem insert_desc_perm (d : Document) (l : List Document) :
    (insert_desc d l).Perm (d :: l) := by
  induction l with
  | nil => simp [insert_desc]
  | cons x xs ih =>
    by_cases h : scoreOf x < scoreOf d
    · simp [insert_desc, h]
    · simp only [insert_desc, if_neg h]
      exact (ih.cons x).trans (List.Perm.swap d x xs)

theorem sort_desc_foldl_perm (l : List Document) :
    ∀ acc : List Document,
      (l.foldl (fun acc d => insert_desc d acc) acc).Perm (acc ++ l) := by
  induction l with
  | nil => intro acc; simp
  | cons d ds ih =>
    intro acc
    simp only [List.foldl_cons]
    exact (ih (insert_desc d acc)).trans
      (((insert_desc_perm d acc).append_right ds).trans List.perm_middle.symm)

theorem sort_by_score_desc_perm (l : List Document) : (sort_by_score_desc l).Perm l := by
  simpa [sort_by_score_desc] using sort_desc_foldl_perm l []

theorem insert_desc_sorted (d : Document) (l : List Document)
    (hl : SortedByScoreDesc l) : SortedByScoreDesc (insert_desc d l) := by
  induction l with
  | nil => simp [insert_desc, SortedByScoreDesc]
  | cons x xs ih =>
    rw [SortedByScoreDesc, List.pairwise_cons] at hl
    obtain ⟨hx, hxs⟩ := hl
    by_cases h : scoreOf x < scoreOf d
    · simp only [insert_desc, if_pos h]
      rw [SortedByScoreDesc, List.pairwise_cons]
      refine ⟨?_, ?_⟩
      · intro y hy
        rcases List.mem_cons.mp hy with rfl | hy2
        · exact le_of_lt h
        · exact (hx y hy2).trans (le_of_lt h)
      · rw [List.pairwise_cons]
        exact ⟨hx, hxs⟩
    · simp only [insert_desc, if_neg h]
      rw [SortedByScoreDesc, List.pairwise_cons]
      refine ⟨?_, ih hxs⟩
      intro y hy
      rcases List.mem_cons.mp ((insert_desc_perm d xs).mem_iff.mp hy) with rfl | hy2
      · exact not_lt.mp h
      · exact hx y hy2

theorem filter_score_eq_nil_of_lt (q : Rat) (x : Document) (xs : List Document)
    (hx : ∀ y ∈ xs, scoreOf y ≤ scoreOf x) (hlt : scoreOf x < q) :
    (x :: xs).filter (fun y => decide (scoreOf y = q)) = [] := by
  rw [List.filter_eq_nil_iff]
  intro a ha
  rcases List.mem_cons.mp ha with rfl | ha2
  · simp only [decide_eq_true_eq]
    exact ne_of_lt hlt
  · simp only [decide_eq_true_eq]
    exact ne_of_lt (lt_of_le_of_lt (hx a ha2) hlt)

theorem insert_desc_filter_ne (d : Document) (l : List Document) (q : Rat)
    (hd : scoreOf d ≠ q) :
    (insert_desc d l).filter (fun y => decide (scoreOf y = q)) =
      l.filter (fun y => decide (scoreOf y = q)) := by
  induction l with
  | nil => simp [insert_desc, hd]
  | cons x xs ih =>
    by_cases h : scoreOf x < scoreOf d
    · simp [insert_desc, h, List.filter_cons, hd]
    · simp only [insert_desc, if_neg h]
      rw [List.filter_cons, List.filter_cons, ih]

theorem insert_desc_filter_eq (d : Document) (l : List Document) (q : Rat)
    (hl : SortedByScoreDesc l) (hd : scoreOf d = q) :
    (insert_desc d l).filter (fun y => decide (scoreOf y = q)) =
      l.filter (fun y => decide (scoreOf y = q)) ++ [d] := by
  induction l with
  | nil => simp [insert_desc, hd]
  | cons x xs ih =>
    rw [SortedByScoreDesc, List.pairwise_cons] at hl
    obtain ⟨hx, hxs⟩ := hl
    by_cases h : scoreOf x < scoreOf d
    · simp only [insert_desc, if_pos h]
      have hxq : scoreOf x < q := hd ▸ h
      have hnil := filter_score_eq_nil_of_lt q x xs hx hxq
      rw [List.filter_cons, if_pos (by simp [hd]), hnil]
      simp
    · simp only [insert_desc, if_neg h]
      rw [List.filter_cons, List.filter_cons, ih hxs]
      by_cases hxcase : scoreOf x = q
      · simp [hxcase]
      · simp [hxcase]

theorem sort_desc_foldl_sorted_filter (l : List Document) :
    ∀ acc : List Document, SortedByScoreDesc acc →
      SortedByScoreDesc (l.foldl (fun acc d => insert_desc d acc) acc) ∧
      ∀ q : Rat,
        (l.foldl (fun acc d => insert_desc d acc) acc).filter
            (fun y => decide (scoreOf y = q)) =
          acc.filter (fun y => decide (scoreOf y = q)) ++
            l.filter (fun y => decide (scoreOf y = q)) := by
  induction l with
  | nil => intro acc hacc; simpa using hacc
  | cons d ds ih =>
    intro acc hacc
    simp only [List.foldl_cons]
    obtain ⟨hsorted, hfilter⟩ := ih (insert_desc d acc) (insert_desc_sorted d acc hacc)
    refine ⟨hsorted, ?_⟩
    intro q
    rw [hfilter q, List.filter_cons]
    by_cases hd : scoreOf d = q
    · rw [insert_desc_filter_eq d acc q hacc hd, if_pos (by simp [hd])]
      simp
    · rw [insert_desc_filter_ne d acc q hd, if_neg (by simp [hd])]

theorem sort_by_score_desc_sorted (l : List Document) :
    SortedByScoreDesc (sort_by_score_desc l) :=
  (sort_desc_foldl_sorted_filter l [] (by simp [SortedByScoreDesc])).1

theorem sort_by_score_desc_filter (l : List Document) (q : Rat) :
    (sort_by_score_desc l).filter (fun y => decide (scoreOf y = q)) =
      l.filter (fun y => decide (scoreOf y = q)) := by
  have h := (sort_desc_foldl_sorted_filter l [] (by simp [SortedByScoreDesc])).2 q
  simpa [sort_by_score_desc] using h

theorem generate_citations_from_map_number (ds : List Document) :
    ∀ i : Nat, (generate_citations_from i ds).map Citation.number =
      List.range' (i + 1) ds.length := by
  induction ds with
  | nil => intro i; simp [generate_citations_from]
  | cons d ds ih =>
    intro i
    simp only [generate_citations_from, List.map_cons, List.length_cons, List.range'_succ]
    exact congrArg (List.cons (i + 1)) (ih (i + 1))

theorem generate_citations_from_getD (ds : List Document) :
    ∀ i j : Nat, j < ds.length →
      (generate_citations_from i ds).getD j (citation_of 0 bareDoc) =
        citation_of (i + j) (ds.getD j bareDoc) := by
  induction ds with
  | nil => intro i j hj; simp at hj
  | cons d ds ih =>
    intro i j hj
    cases j with
    | zero => simp [generate_citations_from]
    | succ j2 =>
      simp only [generate_citations_from, List.getD_cons_succ]
      rw [ih (i + 1) j2 (by simpa using hj)]
      congr 1
      omega

theorem bytes_to_hex_length (l : List Nat) : (bytes_to_hex l).length = 2 * l.length := by
  induction l with
  | nil => simp [bytes_to_hex]
  | cons b bs ih => simp [bytes_to_hex, ih]; ring

theorem md5_digest_bytes_length (msg : List Nat) : (md5_digest_bytes msg).length = 16 := by
  unfold md5_digest_bytes
  rcases ((chunks_succ 63 (md5_pad msg)).map to_words_le).foldl md5_compress
      (0x67452301, 0xefcdab89, 0x98badcfe, 0x10325476) with ⟨a, b, c, d⟩
  simp [le_bytes4]

theorem md5_hexdigest_length (msg : List Nat) : (md5_hexdigest msg).length = 32 := by
  rw [md5_hexdigest, bytes_to_hex_length, md5_digest_bytes_length]

theorem hexDigit_mem (n : Nat) : hexDigit n ∈ hexTable := by
  have h : n % 16 < 16 := Nat.mod_lt _ (by omega)
  show hexTable.getD (n % 16) '0' ∈ hexTable
  generalize hm : n % 16 = m at h
  interval_cases m <;> decide

theorem bytes_to_hex_mem (l : List Nat) : ∀ c ∈ bytes_to_hex l, c ∈ hexTable := by
  induction l with
  | nil => intro c hc; simp [bytes_to_hex] at hc
  | cons b bs ih =>
    intro c hc
    rcases List.mem_cons.mp hc with rfl | hc2
    · exact hexDigit_mem _
    · rcases List.mem_cons.mp hc2 with rfl | hc3
      · exact hexDigit_mem _
      · exact ih c hc3

theorem md5_hexdigest_mem (msg : List Nat) : ∀ c ∈ md5_hexdigest msg, c ∈ hexTable := by
  intro c hc
  exact bytes_to_hex_mem _ c hc

theorem clamp01_nonneg (x : Rat) : 0 ≤ clamp01 x := le_max_left 0 (min 1 x)

theorem clamp01_le_one (x : Rat) : clamp01 x ≤ 1 :=
  max_le (by norm_num) (min_le_left 1 x)

/-- Claim C1 (refuted, code bug): `RAGService.delete_document` returns `True`
yet leaves the vector store untouched, so the vector entry whose chunk id
derives from the deleted document id (`generate_chunk_id "d1" 0 = "d1_chunk_0"`)
remains in the store; deletion removes only the metadata record and the blob.
The spec, the endpoint docstring ("Delete a document and its chunks") and the
in-code comment ("would need chunk IDs ... For now, just delete metadata")
say the cascade is intended. -/
theorem delete_document_keeps_vector_entries :
    generate_chunk_id "d1" 0 = "d1_chunk_0" ∧
    (delete_document ["d1_chunk_0"] ["d1"] ["d1"] "d1").2 = true ∧
    ((delete_document ["d1_chunk_0"] ["d1"] ["d1"] "d1").1).1 = ["d1_chunk_0"] ∧
    ((delete_document ["d1_chunk_0"] ["d1"] ["d1"] "d1").1).2.1 = [] ∧
    ((delete_document ["d1_chunk_0"] ["d1"] ["d1"] "d1").1).2.2 = [] := by
  decide

/-- Claim C2, counterexample: an `azure_search` store whose remote index holds
zero indexed documents passes the `is_initialized` guard (the client object
exists), and the query pipeline then dies with an `IndexError` surfaced as an
HTTP 500 "Internal Server Error" — not with the claimed `ValidationError`. -/
theorem query_zero_docs_azure_not_validation_cex :
    indexed_document_count azure_empty_store = 0 ∧
    is_initialized azure_empty_store = true ∧
    rag_query azure_empty_store [] 5 = .indexError ∧
    chat_query_status (rag_query azure_empty_store [] 5) = (500, "Internal Server Error") := by
  decide

/-- Claim C2, amended: only for the `chroma` backend does a query against a
store with zero indexed documents (a fresh store, whose lazily-created handle
is still `None`) fail with the `ValueError` that the endpoint maps to an HTTP
400 "Validation Error" — and it fails before any backend call, since the
outcome does not depend on what retrieval would return.  For `azure_search`
the readiness guard only checks that the client exists, so a zero-entry store
proceeds to the backend, retrieval returns an empty list, and the pipeline
raises `IndexError`, surfaced as an HTTP 500 server error. -/
theorem query_zero_documents_by_backend (store : VectorStore)
    (retrieved : List Document) (top_k : Nat) :
    (store.vector_store_type = .chroma → store.vectorstore = none →
      rag_query store retrieved top_k =
        .valueError "No documents indexed yet. Index documents first." ∧
      chat_query_status (rag_query store retrieved top_k) = (400, "Validation Error") ∧
      (∀ other : List Document,
        rag_query store retrieved top_k = rag_query store other top_k)) ∧
    (store.vector_store_type = .azure_search → store.search_client = some [] →
      indexed_document_count store = 0 ∧
      is_initialized store = true ∧
      rag_query store [] top_k = .indexError ∧
      chat_query_status (rag_query store [] top_k) = (500, "Internal Server Error")) := by
  constructor
  · intro htype hnone
    have hinit : is_initialized store = false := by
      simp [is_initialized, htype, hnone]
    refine ⟨?_, ?_, ?_⟩ <;> simp [rag_query, hinit, chat_query_status]
  · intro htype hsc
    have hinit : is_initialized store = true := by
      simp [is_initialized, htype, hsc]
    refine ⟨?_, hinit, ?_, ?_⟩ <;>
      simp [indexed_document_count, htype, hsc, rag_query, hinit, select_top_docs,
        rerank_documents, chat_query_status]

/-- Claim C2, witness: the amended theorem applied to a fresh Chroma store and
to a constructed Azure store over an empty index. -/
theorem query_zero_documents_by_backend_witness :
    (chroma_fresh_store.vector_store_type = .chroma ∧ chroma_fresh_store.vectorstore = none ∧
      azure_empty_store.vector_store_type = .azure_search ∧
      azure_empty_store.search_client = some []) ∧
    rag_query chroma_fresh_store [] 5 =
      .valueError "No documents indexed yet. Index documents first." ∧
    chat_query_status (rag_query chroma_fresh_store [] 5) = (400, "Validation Error") ∧
    rag_query azure_empty_store [] 5 = .indexError :=
  ⟨⟨rfl, rfl, rfl, rfl⟩,
   ((query_zero_documents_by_backend chroma_fresh_store [] 5).1 rfl rfl).1,
   ((query_zero_documents_by_backend chroma_fresh_store [] 5).1 rfl rfl).2.1,
   ((query_zero_documents_by_backend azure_empty_store [] 5).2 rfl rfl).2.2.1⟩

/-- Claim C10 (confirmed): `_rerank_documents` reads `documents[0]`
unconditionally, so whenever retrieval hands the query pipeline an empty list
on a store that passed the `is_initialized` guard, the pipeline raises
`IndexError` instead of returning a response with zero used chunks. -/
theorem query_empty_retrieval_index_error (store : VectorStore) (top_k : Nat)
    (hinit : is_initialized store = true) :
    rerank_documents [] = none ∧
    rag_query store [] top_k = .indexError ∧
    ∀ used_docs : List Document, rag_query store [] top_k ≠ QueryOutcome.ok used_docs := by
  refine ⟨rfl, ?_, ?_⟩ <;> simp [rag_query, hinit, select_top_docs, rerank_documents]

/-- Claim C10, witness: an `azure_search` store holding zero entries passes the
guard and the pipeline raises `IndexError` on its empty retrieval. -/
theorem query_empty_retrieval_index_error_witness :
    is_initialized azure_empty_store = true ∧
    rag_query azure_empty_store [] 3 = .indexError :=
  ⟨by decide, (query_empty_retrieval_index_error azure_empty_store 3 (by decide)).2.1⟩

/-- Claim C3 (confirmed): on a non-empty retrieval result whose entries carry a
backend score, the rerank is a stable descending sort by that score — the
output is a permutation of the input, sorted by descending score, and for every
score value the equal-score entries keep their retrieval order — and the query
step then truncates it to `top_k`; when the backend returns no score field the
rerank is the identity, not an error. -/
theorem rerank_documents_spec (documents : List Document) (top_k : Nat)
    (hne : documents ≠ []) :
    ((∀ d ∈ documents, (d.metadata.score).isSome) →
      ∃ out, rerank_documents documents = some out ∧
        out.Perm documents ∧
        SortedByScoreDesc out ∧
        (∀ q : Rat, out.filter (fun y => decide (scoreOf y = q)) =
          documents.filter (fun y => decide (scoreOf y = q))) ∧
        select_top_docs documents top_k = some (out.take top_k)) ∧
    ((∀ d ∈ documents, d.metadata.score = none) →
      rerank_documents documents = some documents ∧
      select_top_docs documents top_k = some (documents.take top_k)) := by
  obtain ⟨d0, rest, rfl⟩ : ∃ d0 rest, documents = d0 :: rest := by
    cases documents with
    | nil => exact absurd rfl hne
    | cons d0 rest => exact ⟨d0, rest, rfl⟩
  constructor
  · intro hall
    have h0 : (d0.metadata.score).isSome := hall d0 (by simp)
    exact ⟨sort_by_score_desc (d0 :: rest),
      by simp [rerank_documents, h0],
      sort_by_score_desc_perm _,
      sort_by_score_desc_sorted _,
      fun q => sort_by_score_desc_filter _ q,
      by simp [select_top_docs, rerank_documents, h0]⟩
  · intro hnone
    have h0 : d0.metadata.score = none := hnone d0 (by simp)
    constructor
    · simp [rerank_documents, h0]
    · simp [select_top_docs, rerank_documents, h0]

/-- Claim C3, witness: the rerank theorem instantiated on a two-chunk retrieval
with scores 2 and 1, truncated to the top chunk. -/
theorem rerank_documents_spec_witness :
    ([docB, docA] ≠ [] ∧ ∀ d ∈ [docB, docA], (d.metadata.score).isSome) ∧
    (∃ out, rerank_documents [docB, docA] = some out ∧
      out.Perm [docB, docA] ∧
      SortedByScoreDesc out ∧
      (∀ q : Rat, out.filter (fun y => decide (scoreOf y = q)) =
        [docB, docA].filter (fun y => decide (scoreOf y = q))) ∧
      select_top_docs [docB, docA] 1 = some (out.take 1)) :=
  ⟨⟨by decide, by decide⟩,
   (rerank_documents_spec [docB, docA] 1 (by decide)).1 (by decide)⟩

/-- Claim C5 (confirmed): the citation `number` fields of the generated
citation list are exactly `1, 2, ..., n` in the order of the chunk list handed
to citation generation (the final reranked order), one citation per chunk,
with no gaps or repeats. -/
theorem generate_citations_numbering (documents : List Document) :
    (generate_citations documents).map Citation.number =
      List.range' 1 documents.length ∧
    (generate_citations documents).length = documents.length ∧
    (List.range' 1 documents.length).Nodup := by
  have h := generate_citations_from_map_number documents 0
  refine ⟨by simpa [generate_citations] using h, ?_, List.nodup_range' 1 documents.length⟩
  have hlen := congrArg List.length h
  simpa [generate_citations] using hlen

/-- Claim C6, counterexample: a chunk whose metadata carries no `chunk_id`
yields a citation whose `chunk_id` is the decimal position string `"0"`, not
the claimed literal `"unknown"` (the code default is `str(i)`). -/
theorem generate_citations_chunk_id_cex :
    (generate_citations [bareDoc]).map Citation.chunk_id = ["0"] ∧
    ("0" : String) ≠ "unknown" := by
  decide

/-- Claim C6, amended: each citation excerpt equals the chunk content when it
is at most 200 characters and otherwise is the first 200 characters followed by
an ellipsis; a missing `document_id` and a missing `document_name` (with no
`source_file` fallback) degrade to the literal `"unknown"`, while a missing
`chunk_id` degrades to the decimal string of the citation's zero-based
position, a missing page to `none`, and a missing score to `0` — never an
error. -/
theorem generate_citations_field_defaults (documents : List Document) (i : Nat)
    (h : i < documents.length) :
    (nth_citation documents i).number = i + 1 ∧
    ((nth_document documents i).page_content.length ≤ 200 →
      (nth_citation documents i).content = (nth_document documents i).page_content) ∧
    (200 < (nth_document documents i).page_content.length →
      (nth_citation documents i).content =
        (nth_document documents i).page_content.take 200 ++ "...") ∧
    ((nth_document documents i).metadata.document_id = none →
      (nth_citation documents i).document_id = "unknown") ∧
    ((nth_document documents i).metadata.document_name = none →
      (nth_document documents i).metadata.source_file = none →
      (nth_citation documents i).document_name = "unknown") ∧
    ((nth_document documents i).metadata.chunk_id = none →
      (nth_citation documents i).chunk_id = toString i) ∧
    ((nth_document documents i).metadata.page = none →
      (nth_document documents i).metadata.page_number = none →
      (nth_citation documents i).page = none) ∧
    ((nth_document documents i).metadata.score = none →
      (nth_citation documents i).score = 0) := by
  have key : nth_citation documents i = citation_of i (nth_document documents i) := by
    have hk := generate_citations_from_getD documents 0 i h
    simpa [nth_citation, nth_document, generate_citations] using hk
  rw [key]
  refine ⟨rfl, ?_, ?_, ?_, ?_, ?_, ?_, ?_⟩
  · intro hle
    simp only [citation_of]
    rw [if_neg (by omega)]
  · intro hgt
    simp only [citation_of]
    rw [if_pos (by omega)]
  · intro hid
    simp [citation_of, hid]
  · intro h1 h2
    simp [citation_of, h1, h2, Option.orElse]
  · intro hcid
    simp [citation_of, hcid]
  · intro h1 h2
    simp [citation_of, h1, h2, Option.orElse]
  · intro hs
    simp [citation_of, hs]

/-- Claim C6, witness: the amended theorem instantiated at position 1 of a
two-chunk list whose second chunk has an entirely empty metadata dict. -/
theorem generate_citations_field_defaults_witness :
    1 < ([docA, bareDoc] : List Document).length ∧
    (nth_citation [docA, bareDoc] 1).number = 1 + 1 ∧
    (nth_citation [docA, bareDoc] 1).document_id = "unknown" ∧
    (nth_citation [docA, bareDoc] 1).chunk_id = toString 1 :=
  ⟨by decide,
   (generate_citations_field_defaults [docA, bareDoc] 1 (by decide)).1,
   (generate_citations_field_defaults [docA, bareDoc] 1 (by decide)).2.2.2.1 (by decide),
   (generate_citations_field_defaults [docA, bareDoc] 1 (by decide)).2.2.2.2.2.1 (by decide)⟩

/-- Claim C4 (confirmed against the spec model): for every similarity
primitive and all (query, answer, retrieved, used) inputs the confidence score
lies in the unit interval, and an empty `used_docs` list yields the defined
fixed low value — which itself lies strictly below 1 and at or above 0 — never
an error. -/
theorem calculate_confidence_bounds (similarity : String → String → Rat)
    (query : String) (answer : String)
    (retrieved_docs used_docs : List Document) :
    0 ≤ calculate_confidence similarity query answer retrieved_docs used_docs ∧
    calculate_confidence similarity query answer retrieved_docs used_docs ≤ 1 ∧
    calculate_confidence similarity query answer retrieved_docs [] = low_confidence ∧
    0 ≤ low_confidence ∧ low_confidence < 1 := by
  refine ⟨?_, ?_, by simp [calculate_confidence], by decide, by decide⟩
  · by_cases h : used_docs.isEmpty
    · simp only [calculate_confidence, if_pos h]
      decide
    · simp only [calculate_confidence, if_neg h]
      exact clamp01_nonneg _
  · by_cases h : used_docs.isEmpty
    · simp only [calculate_confidence, if_pos h]
      decide
    · simp only [calculate_confidence, if_neg h]
      exact clamp01_le_one _

/-- Claim C7, counterexample: Python's `if content:` is falsy for an empty byte
string, so uploading an empty file takes the path-hash branch even though the
bytes are available — the id is not the MD5 of the bytes, and two uploads of
the same (empty) bytes saved under different temporary paths get different
document ids, breaking the de-duplication consequence. -/
theorem generate_document_id_empty_bytes_cex :
    generate_document_id "/tmp/upload_a.txt" (some []) ≠ md5_hexdigest [] ∧
    generate_document_id "/tmp/upload_a.txt" (some []) ≠
      generate_document_id "/tmp/upload_b.txt" (some []) := by
  decide

/-- Claim C7, amended: for non-empty content bytes the generated document id is
the full 32-character MD5 hex digest of the bytes — independent of the file
path, so indexing the same non-empty bytes twice yields the same id — and with
no bytes available it is the MD5 hex digest of the UTF-8 file path truncated to
its first 16 characters; ids consist of lowercase hexadecimal characters
throughout, and empty content falls back to the path hash. -/
theorem generate_document_id_spec (file_path file_path2 : String)
    (content : List Nat) (h : content ≠ []) :
    generate_document_id file_path (some content) = md5_hexdigest content ∧
    generate_document_id file_path (some content) =
      generate_document_id file_path2 (some content) ∧
    (md5_hexdigest content).length = 32 ∧
    generate_document_id file_path none =
      (md5_hexdigest (str_utf8_bytes file_path)).take 16 ∧
    (generate_document_id file_path none).length = 16 ∧
    (∀ c ∈ generate_document_id file_path none, c ∈ hexTable) ∧
    (∀ c ∈ generate_document_id file_path (some content), c ∈ hexTable) := by
  have hne : content.isEmpty = false := by
    cases content with
    | nil => exact absurd rfl h
    | cons b bs => rfl
  refine ⟨?_, ?_, md5_hexdigest_length content, rfl, ?_, ?_, ?_⟩
  · simp [generate_document_id, hne]
  · simp [generate_document_id, hne]
  · show ((md5_hexdigest (str_utf8_bytes file_path)).take 16).length = 16
    rw [List.length_take, md5_hexdigest_length]
    decide
  · intro c hc
    exact md5_hexdigest_mem _ c (List.take_subset 16 _ hc)
  · intro c hc
    simp only [generate_document_id, hne, if_pos] at hc
    exact md5_hexdigest_mem _ c hc

/-- Claim C7, witness: the amended theorem instantiated on the one-byte content
`[97]` (the bytes of "a") and two distinct upload paths. -/
theorem generate_document_id_spec_witness :
    ([97] : List Nat) ≠ [] ∧
    generate_document_id "/tmp/upload_a.txt" (some [97]) = md5_hexdigest [97] ∧
    generate_document_id "/tmp/upload_a.txt" (some [97]) =
      generate_document_id "/tmp/upload_b.txt" (some [97]) ∧
    (generate_document_id "/tmp/upload_a.txt" none).length = 16 :=
  ⟨by decide,
   (generate_document_id_spec "/tmp/upload_a.txt" "/tmp/upload_b.txt" [97] (by decide)).1,
   (generate_document_id_spec "/tmp/upload_a.txt" "/tmp/upload_b.txt" [97] (by decide)).2.1,
   (generate_document_id_spec "/tmp/upload_a.txt" "/tmp/upload_b.txt" [97] (by decide)).2.2.2.2.1⟩

/-- Claim C8, counterexample: a metadata-save failure does not mark the
document `failed` nor re-raise — `save_document_metadata` absorbs its own
exceptions and reports a boolean, so indexing returns the document as
`indexed`; likewise an `AzureError` during the blob upload is absorbed (the
document ends `indexed` with no blob URL). -/
theorem index_document_absorbed_failures_cex :
    (index_document [] "d1" "one.txt" ".txt" 10 (.ok ["chunk text"]) (.ok ()) true
        (.succeeded "https://blob.example/d1") false).result =
      .ok { document_id := "d1", filename := "one.txt", file_type := ".txt", file_size := 10,
            status := .indexed, chunk_count := 1,
            blob_url := some "https://blob.example/d1", error_message := none } ∧
    (index_document [] "d1" "one.txt" ".txt" 10 (.ok ["chunk text"]) (.ok ()) true
        (.azureError "network down") true).result =
      .ok { document_id := "d1", filename := "one.txt", file_type := ".txt", file_size := 10,
            status := .indexed, chunk_count := 1,
            blob_url := none, error_message := none } := by
  constructor <;> rfl

/-- Claim C8, amended: an indexing failure raised from the load-and-chunk step
or the vector-store add marks the document `failed` with the captured message
persisted and re-raises, with the vector store left as it was; a non-Azure
exception raised from the blob upload does the same but the chunk entries
already written are kept (no rollback); an `AzureError` during upload and a
metadata-save failure, however, are absorbed inside the storage service and
the document is returned as `indexed`. -/
theorem index_document_failure_semantics (prior : List String)
    (document_id filename file_type : String) (file_size : Nat)
    (chunks : List String) (e url : String) (add_result : Except String Unit)
    (blob_configured : Bool) (upload_outcome : UploadOutcome) (save_succeeds : Bool) :
    ((index_document prior document_id filename file_type file_size (.error e) add_result
        blob_configured upload_outcome save_succeeds).result = .error e ∧
     ((index_document prior document_id filename file_type file_size (.error e) add_result
        blob_configured upload_outcome save_succeeds).saved).map DocumentMetadata.status =
       some .failed ∧
     ((index_document prior document_id filename file_type file_size (.error e) add_result
        blob_configured upload_outcome save_succeeds).saved).map
         DocumentMetadata.error_message = some (some e) ∧
     (index_document prior document_id filename file_type file_size (.error e) add_result
        blob_configured upload_outcome save_succeeds).vector_ids = prior) ∧
    ((index_document prior document_id filename file_type file_size (.ok chunks) (.error e)
        blob_configured upload_outcome save_succeeds).result = .error e ∧
     ((index_document prior document_id filename file_type file_size (.ok chunks) (.error e)
        blob_configured upload_outcome save_succeeds).saved).map DocumentMetadata.status =
       some .failed ∧
     ((index_document prior document_id filename file_type file_size (.ok chunks) (.error e)
        blob_configured upload_outcome save_succeeds).saved).map
         DocumentMetadata.error_message = some (some e) ∧
     (index_document prior document_id filename file_type file_size (.ok chunks) (.error e)
        blob_configured upload_outcome save_succeeds).vector_ids = prior) ∧
    ((index_document prior document_id filename file_type file_size (.ok chunks) (.ok ())
        true (.raised e) save_succeeds).result = .error e ∧
     ((index_document prior document_id filename file_type file_size (.ok chunks) (.ok ())
        true (.raised e) save_succeeds).saved).map DocumentMetadata.status = some .failed ∧
     ((index_document prior document_id filename file_type file_size (.ok chunks) (.ok ())
        true (.raised e) save_succeeds).saved).map DocumentMetadata.error_message =
       some (some e) ∧
     (index_document prior document_id filename file_type file_size (.ok chunks) (.ok ())
        true (.raised e) save_succeeds).vector_ids =
       prior ++ (List.range chunks.length).map (fun i => generate_chunk_id document_id i)) ∧
    (∃ m, (index_document prior document_id filename file_type file_size (.ok chunks) (.ok ())
        blob_configured (.azureError e) save_succeeds).result = .ok m ∧
      m.status = .indexed ∧ m.error_message = none) ∧
    (∃ m, (index_document prior document_id filename file_type file_size (.ok chunks) (.ok ())
        blob_configured (.succeeded url) false).result = .ok m ∧
      m.status = .indexed ∧ m.error_message = none) := by
  refine ⟨⟨rfl, rfl, rfl, rfl⟩, ⟨rfl, rfl, rfl, rfl⟩, ⟨rfl, rfl, rfl, rfl⟩, ?_, ?_⟩
  · cases blob_configured
    · exact ⟨_, rfl, rfl, rfl⟩
    · exact ⟨_, rfl, rfl, rfl⟩
  · cases blob_configured
    · exact ⟨_, rfl, rfl, rfl⟩
    · exact ⟨_, rfl, rfl, rfl⟩

/-- Claim C9 (confirmed): appending a two-message batch to an existing
conversation row whose stored count agrees with its stored message list, at a
time later than its last update, succeeds, appends exactly those two messages
at the end in order, raises `message_count` by exactly 2 (keeping count and
list in sync), and strictly advances `updated_at`. -/
theorem append_two_messages_spec (conv : Conversation)
    (m1 m2 : ConversationMessage) (now : Nat)
    (hinv : conv.message_count = conv.messages.length)
    (hclock : conv.updated_at < now) :
    ∃ conv2,
      append_conversation_messages (some conv) [m1, m2] now = (some conv2, true) ∧
      conv2.message_count = conv.message_count + 2 ∧
      conv2.messages = conv.messages ++ [m1, m2] ∧
      conv2.message_count = conv2.messages.length ∧
      conv2.conversation_id = conv.conversation_id ∧
      conv.updated_at < conv2.updated_at := by
  refine ⟨{ conv with
              messages := conv.messages ++ [m1, m2]
              message_count := (conv.messages ++ [m1, m2]).length
              updated_at := now }, ?_, ?_, rfl, ?_, rfl, hclock⟩
  · simp [append_conversation_messages]
  · simp [hinv]
  · rfl

/-- Claim C9, witness: the append theorem instantiated on a one-message
conversation row, appending the user question and the assistant answer at a
later tick. -/
theorem append_two_messages_spec_witness :
    (sample_conversation.message_count = sample_conversation.messages.length ∧
      sample_conversation.updated_at < 6) ∧
    (∃ conv2,
      append_conversation_messages (some sample_conversation)
          [sample_user_message, sample_assistant_message] 6 = (some conv2, true) ∧
      conv2.message_count = sample_conversation.message_count + 2 ∧
      conv2.messages = sample_conversation.messages ++
        [sample_user_message, sample_assistant_message] ∧
      conv2.message_count = conv2.messages.length ∧
      conv2.conversation_id = sample_conversation.conversation_id ∧
      sample_conversation.updated_at < conv2.updated_at) :=
  ⟨⟨by decide, by decide⟩,
   append_two_messages_spec sample_conversation sample_user_message
     sample_assistant_message 6 (by decide) (by decide)⟩
